import Mathlib

/-!
Verification of the payment-ledger subsystem of the TranscriptionBot
repository: the Wallet/Transaction data model, the wallet (ledger) service
(`src/services/wallet_service.py`), and the Click/Payme gateway webhook
handlers (`src/django_admin/apps/transactions/views.py`,
`src/services/payment/click_service.py`, `src/services/payment/payme_service.py`).

Modelling conventions:
- `Decimal` money amounts are modelled as exact rationals (`ℚ`).
- Python `float` (IEEE binary64) arithmetic, where the source uses it, is
  modelled exactly: `roundD` rounds a rational to the nearest binary64 value
  (ties to even), assuming the normal range (no subnormals/overflow, which
  the amounts in this code never reach).
- The database is modelled as a single wallet row plus the list of its
  transaction rows (the claims under study all concern one wallet).
- Timestamps are milliseconds as `ℕ`, passed to each operation by the caller
  (`timezone.now()` / `time.time()*1000` in the source).
-/

namespace TranscriptionBot

attribute [local semireducible] Rat.mul Rat.add Rat.inv Rat.sub Rat.ofScientific

set_option maxRecDepth 400000

/-- Round a rational to the nearest integer, ties to even
(the rounding used both by IEEE binary64 arithmetic and by
`decimal.Decimal.quantize`'s default `ROUND_HALF_EVEN`). -/
def roundHalfEven (x : ℚ) : ℤ :=
  let f : ℤ := ⌊x⌋
  let r : ℚ := x - f
  if r < 1/2 then f
  else if 1/2 < r then f + 1
  else if Even f then f else f + 1

/-- `Decimal.quantize(Decimal('0.01'))`: round to two decimal places,
ties to even. -/
def quantize2 (x : ℚ) : ℚ := (roundHalfEven (x * 100) : ℚ) / 100

/-- Python `int()` on a real value: truncation toward zero. -/
def truncQ (x : ℚ) : ℤ := if 0 ≤ x then ⌊x⌋ else ⌈x⌉

/-- Fuel-driven floor of log₂ on naturals (`natLog2 n = ⌊log₂ n⌋` for `n ≥ 1`).
Structural recursion on the fuel keeps it kernel-evaluable. -/
def natLog2Aux : ℕ → ℕ → ℕ
  | 0, _ => 0
  | f + 1, n => if 2 ≤ n then natLog2Aux f (n / 2) + 1 else 0

/-- Floor of log₂ of a natural number (0 for 0 and 1). -/
def natLog2 (n : ℕ) : ℕ := natLog2Aux n n

/-- Fuel-driven ceiling of log₂ on naturals (`natClog2 n = ⌈log₂ n⌉` for `n ≥ 1`). -/
def natClog2Aux : ℕ → ℕ → ℕ
  | 0, _ => 0
  | f + 1, n => if 2 ≤ n then natClog2Aux f ((n + 1) / 2) + 1 else 0

/-- Ceiling of log₂ of a natural number (0 for 0 and 1). -/
def natClog2 (n : ℕ) : ℕ := natClog2Aux n n

/-- Floor of log₂ of a positive rational: the unique `e` with `2^e ≤ q < 2^(e+1)`. -/
def ratLog2 (q : ℚ) : ℤ :=
  if 1 ≤ q then (natLog2 ⌊q⌋.toNat : ℤ) else -(natClog2 ⌈q⁻¹⌉.toNat : ℤ)

/-- Round a rational to the nearest IEEE binary64 value (53-bit significand,
round to nearest, ties to even), restricted to the normal range: the result is
`m · 2^(e-52)` with `e = ⌊log₂ |q|⌋`. This models Python `float` values and
the correctly-rounded result of each Python float operation. -/
def roundD (q : ℚ) : ℚ :=
  if q = 0 then 0
  else
    let a : ℚ := |q|
    let e : ℤ := ratLog2 a
    let ulp : ℚ := (2 : ℚ) ^ (e - 52)
    let m : ℤ := roundHalfEven (a / ulp)
    (if q < 0 then -1 else 1) * (m : ℚ) * ulp

/-- `PaymeService.tiyin_to_amount` (src/services/payment/payme_service.py,
`return float(tiyin) / 100`): the tiyin count is converted to a binary64
float and divided by 100 in float arithmetic. -/
def tiyin_to_amount (tiyin : ℤ) : ℚ := roundD (roundD (tiyin : ℚ) / 100)

/-- `PaymeService.amount_to_tiyin` (src/services/payment/payme_service.py,
`return int(amount * 100)`) on a `float` argument, as used with the float
amounts of `create_payment_link`: float multiplication by 100, then `int()`
truncation toward zero. (When called with a `Decimal`, Python instead
computes the product exactly; the float path is the one modelled here.) -/
def amount_to_tiyin (amount : ℚ) : ℤ := truncQ (roundD (amount * 100))

/-- `core.enums.TransactionType` (src/core/enums.py / Django model choices). -/
inductive TxnType where
  | credit | debit | refund | bonus | commission
deriving DecidableEq

/-- `core.enums.TransactionStatus`. -/
inductive TxnStatus where
  | pending | completed | failed | cancelled | refunded
deriving DecidableEq

/-- The Python string of a `TxnStatus`, as interpolated into messages
(`f"Transaction already {trans.status}"`). -/
def TxnStatus.str : TxnStatus → String
  | .pending => "pending"
  | .completed => "completed"
  | .failed => "failed"
  | .cancelled => "cancelled"
  | .refunded => "refunded"

/-- The `Transaction` row (src/django_admin/apps/transactions/models.py).
`reference_id` is `none` when the row was created without an explicit
reference (Django then fills a fresh UUID, which no later lookup queries).
Fields not consulted by any claim under study (`payment_method`, `metadata`,
`related_object_*`, `currency`, `updated_at`) are omitted. -/
structure Txn where
  id : ℕ
  type : TxnType
  amount : ℚ
  balance_before : Option ℚ
  balance_after : Option ℚ
  status : TxnStatus
  reference_id : Option String
  external_id : Option String
  gateway : Option String
  gateway_transaction_id : Option String
  description : String
  created_at : ℕ
  processed_at : Option ℕ
  failed_reason : String
deriving DecidableEq

/-- The `Wallet` row (src/django_admin/apps/wallet/models.py). -/
structure Wallet where
  balance : ℚ
  total_credited : ℚ
  total_debited : ℚ
  is_active : Bool
  daily_limit : Option ℚ
  monthly_limit : Option ℚ
  last_transaction_at : Option ℕ
deriving DecidableEq

/-- The persistent state the claims range over: one user's wallet row and
the transaction rows, with the next fresh primary key. -/
structure LedgerState where
  wallet : Wallet
  txns : List Txn
  nextId : ℕ
deriving DecidableEq

/-- `WalletService.TransactionResult` (src/services/wallet_service.py). -/
structure TransactionResult where
  success : Bool
  transaction_id : Option String
  balance_after : Option ℚ
  error : Option String
deriving DecidableEq

/-- Replace the transaction row with primary key `i` (`trans.save()` on a
fetched row). -/
def updateTxn (l : List Txn) (i : ℕ) (t' : Txn) : List Txn :=
  l.map fun u => if u.id = i then t' else u

/-- `WalletService.add_balance` (src/services/wallet_service.py:88-143).
`insert_ok` models whether `Transaction.objects.create` raises: the method
has no `transaction.atomic()` block, so `wallet.save()` has already
committed when the insert runs, and the surrounding `except` turns an
insert failure into a failure result with the wallet row already updated. -/
def add_balance (s : LedgerState) (now : ℕ) (amount : ℚ) (description : String)
    (reference_id : Option String) (gateway : Option String)
    (gateway_transaction_id : Option String) (insert_ok : Bool) :
    TransactionResult × LedgerState :=
  if amount ≤ 0 then
    (⟨false, none, none, some "Amount must be positive"⟩, s)
  else
    let balance_before := s.wallet.balance
    let w : Wallet := { s.wallet with
      balance := s.wallet.balance + amount,
      total_credited := s.wallet.total_credited + amount,
      last_transaction_at := some now }
    if insert_ok then
      let t : Txn :=
        { id := s.nextId, type := .credit, amount := amount,
          balance_before := some balance_before, balance_after := some w.balance,
          status := .completed, reference_id := reference_id,
          external_id := none, gateway := gateway,
          gateway_transaction_id := gateway_transaction_id,
          description := description, created_at := now,
          processed_at := none, failed_reason := "" }
      (⟨true, some (toString s.nextId), some w.balance, none⟩,
       ⟨w, s.txns ++ [t], s.nextId + 1⟩)
    else
      (⟨false, none, none, some "database error"⟩, { s with wallet := w })

/-- The duplicate check of `deduct_balance`
(src/services/wallet_service.py:162-175): `reference_id` given and some
completed transaction already carries it. -/
def hasCompletedRef (s : LedgerState) (reference_id : Option String) : Bool :=
  match reference_id with
  | some r => s.txns.any fun t =>
      decide (t.reference_id = some r ∧ t.status = TxnStatus.completed)
  | none => false

/-- `WalletService.deduct_balance` (src/services/wallet_service.py:145-219).
Checks, in source order: positive amount; no completed transaction with the
same `reference_id`; sufficient balance unless `skip_balance_check`. There is
no `is_active` check and no daily/monthly-limit check in the source. As in
`add_balance`, `insert_ok` models the uncaught-insert failure mode of the
missing atomic block. -/
def deduct_balance (s : LedgerState) (now : ℕ) (amount : ℚ) (description : String)
    (reference_id : Option String) (skip_balance_check : Bool) (insert_ok : Bool) :
    TransactionResult × LedgerState :=
  if amount ≤ 0 then
    (⟨false, none, none, some "Amount must be positive"⟩, s)
  else if hasCompletedRef s reference_id then
    (⟨false, none, none, some "Transaction already processed"⟩, s)
  else if ¬ skip_balance_check ∧ s.wallet.balance < amount then
    (⟨false, none, none, some "Insufficient balance"⟩, s)
  else
    let balance_before := s.wallet.balance
    let w : Wallet := { s.wallet with
      balance := s.wallet.balance - amount,
      total_debited := s.wallet.total_debited + amount,
      last_transaction_at := some now }
    if insert_ok then
      let t : Txn :=
        { id := s.nextId, type := .debit, amount := amount,
          balance_before := some balance_before, balance_after := some w.balance,
          status := .completed, reference_id := reference_id,
          external_id := none, gateway := none, gateway_transaction_id := none,
          description := description, created_at := now,
          processed_at := none, failed_reason := "" }
      (⟨true, some (toString s.nextId), some w.balance, none⟩,
       ⟨w, s.txns ++ [t], s.nextId + 1⟩)
    else
      (⟨false, none, none, some "database error"⟩, { s with wallet := w })

/-- `PricingSettings` (src/bot/config.py:106-111): per-minute prices and the
initial balance, configured floats (defaults 100.0 audio, 150.0 video,
1000.0 initial), modelled as exact rationals. -/
structure PricingSettings where
  audio_price_per_min : ℚ
  video_price_per_min : ℚ
  initial_balance : ℚ
deriving DecidableEq

/-- `WalletService.calculate_transcription_cost`
(src/services/wallet_service.py:240-254): whole minutes rounded up with a
one-minute minimum (`max(1, (duration_seconds + 59) // 60)`, Python floor
division), video price for `video`/`video_note` media (lower-cased),
audio price otherwise; the product is quantized to two decimal places
(`Decimal(str(...)).quantize(Decimal('0.01'))`, modelled exactly). -/
def calculate_transcription_cost (p : PricingSettings) (duration_seconds : ℤ)
    (media_type : String) : ℚ :=
  let duration_minutes : ℤ := max 1 ((duration_seconds + 59).fdiv 60)
  let base_cost : ℚ :=
    if media_type.toLower = "video" ∨ media_type.toLower = "video_note" then
      p.video_price_per_min
    else
      p.audio_price_per_min
  quantize2 (base_cost * (duration_minutes : ℚ))

/-- The parameters of a Click webhook request
(src/django_admin/apps/transactions/views.py:161-171, 285-296).
`amount` is the decimal value of the `amount` parameter. `sig_valid` is the
outcome of `ClickService.verify_signature` (an MD5 comparison, which a
shallow embedding treats as an oracle; for Complete it is `False` whenever
`merchant_prepare_id` is missing). `error`/`error_note` are the
gateway-reported error parameters. -/
structure ClickRequest where
  click_trans_id : String
  service_id : String
  click_paydoc_id : String
  merchant_trans_id : String
  merchant_prepare_id : Option String
  amount : ℚ
  error : Option ℤ
  error_note : String
  sig_valid : Bool
deriving DecidableEq

/-- A Click webhook JSON response (`ClickService.build_response`,
src/services/payment/click_service.py:176-212): `error`/`error_note` always
present, the id fields included only when truthy. -/
structure ClickResponse where
  error : ℤ
  error_note : String
  click_trans_id : Option String
  merchant_trans_id : Option String
  merchant_prepare_id : Option String
  merchant_confirm_id : Option String
deriving DecidableEq

/-- `build_response` includes an id field only `if value:` — the empty
string (falsy) is omitted. -/
def strOpt (x : String) : Option String := if x = "" then none else some x

/-- `ClickService.error_response`. -/
def click_error_response (e : ℤ) (note : String) : ClickResponse :=
  ⟨e, note, none, none, none, none⟩

/-- `ClickService.prepare_response` (error 0, "Success"). -/
def click_prepare_response (ctid mtid prep : String) : ClickResponse :=
  ⟨0, "Success", strOpt ctid, strOpt mtid, strOpt prep, none⟩

/-- `ClickService.complete_response` (error 0, "Success"). -/
def click_complete_response (ctid mtid conf : String) : ClickResponse :=
  ⟨0, "Success", strOpt ctid, strOpt mtid, none, strOpt conf⟩

/-- Whether the request's gateway-reported `error` parameter is present and
negative (`if error and int(error) < 0`). -/
def clickErrNeg (req : ClickRequest) : Bool :=
  match req.error with
  | some e => decide (e < 0)
  | none => false

/-- The `click_prepare` webhook view
(src/django_admin/apps/transactions/views.py:146-258), success path and
protocol errors; the surrounding `except` is modelled by
`click_prepare_view`. Guards in source order: signature; gateway-reported
error; transaction lookup by `reference_id`; amount comparison
(`float(amount) != float(trans.amount)`, float equality modelled by
`roundD`); pending status. On success it persists
`gateway_transaction_id := click_trans_id`, `external_id := click_paydoc_id`,
`gateway := "click"` and answers `merchant_prepare_id = trans.id`. -/
def click_prepare (s : LedgerState) (req : ClickRequest) :
    ClickResponse × LedgerState :=
  if ¬ req.sig_valid then
    (click_error_response (-1) "Invalid signature", s)
  else if clickErrNeg req then
    (click_error_response (-8) ("Click error: " ++ req.error_note), s)
  else
    match s.txns.find? (fun t =>
        decide (t.reference_id = some req.merchant_trans_id)) with
    | none => (click_error_response (-6) "Transaction not found", s)
    | some t =>
      if roundD req.amount ≠ roundD t.amount then
        (click_error_response (-2) "Incorrect amount", s)
      else if t.status ≠ .pending then
        (click_error_response (-4) "Transaction already processed", s)
      else
        let t' : Txn :=
          { t with
            gateway_transaction_id := some req.click_trans_id,
            external_id := some req.click_paydoc_id,
            gateway := some "click" }
        (click_prepare_response req.click_trans_id req.merchant_trans_id
           (toString t.id),
         { s with txns := updateTxn s.txns t.id t' })

/-- The `click_complete` webhook view
(src/django_admin/apps/transactions/views.py:270-414), success path and
protocol errors; the surrounding `except` is modelled by
`click_complete_view`. After the shared guards: an already-`completed`
transaction is answered with the same success response and no mutation; a
`cancelled` one with error −9; otherwise (inside `transaction.atomic()`)
the wallet is credited, the row flipped to `completed` with
`balance_after`/`processed_at` and the Click ids, and the response carries
`merchant_confirm_id = trans.id`. -/
def click_complete (s : LedgerState) (now : ℕ) (req : ClickRequest) :
    ClickResponse × LedgerState :=
  if ¬ req.sig_valid then
    (click_error_response (-1) "Invalid signature", s)
  else if clickErrNeg req then
    (click_error_response (-8) ("Click error: " ++ req.error_note), s)
  else
    match s.txns.find? (fun t =>
        decide (t.reference_id = some req.merchant_trans_id)) with
    | none => (click_error_response (-6) "Transaction not found", s)
    | some t =>
      if roundD req.amount ≠ roundD t.amount then
        (click_error_response (-2) "Incorrect amount", s)
      else if t.status = .completed then
        (click_complete_response req.click_trans_id req.merchant_trans_id
           (toString t.id), s)
      else if t.status = .cancelled then
        (click_error_response (-9) "Transaction was cancelled", s)
      else
        let w : Wallet := { s.wallet with
          balance := s.wallet.balance + t.amount,
          total_credited := s.wallet.total_credited + t.amount,
          last_transaction_at := some now }
        let t' : Txn :=
          { t with
            status := .completed, balance_after := some w.balance,
            processed_at := some now,
            gateway_transaction_id := some req.click_trans_id,
            external_id := some req.click_paydoc_id,
            gateway := some "click" }
        (click_complete_response req.click_trans_id req.merchant_trans_id
           (toString t.id),
         { s with wallet := w, txns := updateTxn s.txns t.id t' })

/-- The whole `click_prepare` view including its `except Exception` handler
(views.py:260-265): an unexpected exception with text `e` yields
`{"error": -9, "error_note": f"Internal error: {str(e)}"}`. The mutating
part of the body is a single `trans.save()`, after which nothing can raise,
so an exception leaves the state unchanged. -/
def click_prepare_view (s : LedgerState) (req : ClickRequest)
    (exc : Option String) : ClickResponse × LedgerState :=
  match exc with
  | some e => (⟨-9, "Internal error: " ++ e, none, none, none, none⟩, s)
  | none => click_prepare s req

/-- The whole `click_complete` view including its `except Exception` handler
(views.py:409-414); the mutating section is inside `transaction.atomic()`
and rolls back if it raises. -/
def click_complete_view (s : LedgerState) (now : ℕ) (req : ClickRequest)
    (exc : Option String) : ClickResponse × LedgerState :=
  match exc with
  | some e => (⟨-9, "Internal error: " ++ e, none, none, none, none⟩, s)
  | none => click_complete s now req

/-- The `result` payloads of the Payme JSON-RPC responses
(`PaymeService.*_response`, src/services/payment/payme_service.py:213-282). -/
inductive PaymeResult where
  | allow (b : Bool)
  | create (create_time : ℤ) (transaction : String) (state : ℤ)
  | perform (transaction : String) (perform_time : ℤ) (state : ℤ)
  | cancel (transaction : String) (cancel_time : ℤ) (state : ℤ)
deriving DecidableEq

/-- A Payme JSON-RPC 2.0 response (`PaymeService.build_response`): either a
`result` or an `error {code, message, data?}`, with the request `id` echoed
when one was supplied. -/
inductive PaymeResponse where
  | ok (result : PaymeResult) (id : Option ℕ)
  | err (code : ℤ) (message : String) (data : Option String) (id : Option ℕ)
deriving DecidableEq

/-- Whether a Payme response is a success (`result`) response. -/
def PaymeResponse.isOk : PaymeResponse → Bool
  | .ok _ _ => true
  | .err _ _ _ _ => false

/-- Lookup used by the Payme `id`-keyed methods:
`Transaction.objects.get(external_id=payme_trans_id, gateway="payme")`. -/
def findPayme (l : List Txn) (pid : String) : Option Txn :=
  l.find? fun t =>
    decide (t.external_id = some pid ∧ t.gateway = some "payme")

/-- The `CheckPerformTransaction` branch of `payme_webhook`
(src/django_admin/apps/transactions/views.py:471-522). `order_id` is `none`
when missing or empty (Python falsiness). The amount guard is
`float(trans.amount) != float(amount_uzs)` with
`amount_uzs = tiyin_to_amount(amount)` already a float. Read-only. -/
def payme_check_perform (s : LedgerState) (tiyin : ℤ) (order_id : Option String)
    (rid : Option ℕ) : PaymeResponse × LedgerState :=
  match order_id with
  | none => (.err (-31050) "Order ID is required" (some "order_id") rid, s)
  | some oid =>
    match s.txns.find? (fun t => decide (t.reference_id = some oid)) with
    | none => (.err (-31050) "Invalid order_id" (some "order_id") rid, s)
    | some t =>
      if roundD t.amount ≠ tiyin_to_amount tiyin then
        (.err (-31001) "Amount mismatch" none rid, s)
      else if t.status ≠ .pending then
        (.err (-31008) ("Transaction already " ++ t.status.str) none rid, s)
      else
        (.ok (.allow true) rid, s)

/-- The `CreateTransaction` branch of `payme_webhook` (views.py:525-598).
If the stored `external_id` already equals the given Payme id the existing
state is returned unchanged (idempotent); otherwise, after the amount and
pending-status guards, `external_id := id` and `gateway := "payme"` are
persisted and `{create_time, transaction, state: 1}` returned. -/
def payme_create (s : LedgerState) (pid : String) (tiyin : ℤ)
    (order_id : Option String) (rid : Option ℕ) : PaymeResponse × LedgerState :=
  match order_id with
  | none => (.err (-31050) "Order ID is required" (some "order_id") rid, s)
  | some oid =>
    match s.txns.find? (fun t => decide (t.reference_id = some oid)) with
    | none => (.err (-31050) "Invalid order_id" (some "order_id") rid, s)
    | some t =>
      if t.external_id = some pid then
        (.ok (.create (t.created_at : ℤ) (toString t.id) 1) rid, s)
      else if roundD t.amount ≠ tiyin_to_amount tiyin then
        (.err (-31001) "Amount mismatch" none rid, s)
      else if t.status ≠ .pending then
        (.err (-31008) ("Transaction already " ++ t.status.str) none rid, s)
      else
        let t' : Txn := { t with
          external_id := some pid,
          gateway := some "payme" }
        (.ok (.create (t.created_at : ℤ) (toString t.id) 1) rid,
         { s with txns := updateTxn s.txns t.id t' })

/-- The `PerformTransaction` branch of `payme_webhook` (views.py:601-658).
An already-`completed` transaction is answered with its stored
`processed_at` and state 2 without mutation; `cancelled`/`failed` yield
error −31008; otherwise (inside `transaction.atomic()`) the wallet is
credited and the row flipped to `completed` with `processed_at := now`. -/
def payme_perform (s : LedgerState) (now : ℕ) (pid : String) (rid : Option ℕ) :
    PaymeResponse × LedgerState :=
  match findPayme s.txns pid with
  | none => (.err (-31003) "Transaction not found" none rid, s)
  | some t =>
    if t.status = .completed then
      (.ok (.perform (toString t.id)
         (match t.processed_at with | some p => (p : ℤ) | none => 0) 2) rid, s)
    else if t.status = .cancelled ∨ t.status = .failed then
      (.err (-31008) ("Transaction is " ++ t.status.str) none rid, s)
    else
      let w : Wallet := { s.wallet with
        balance := s.wallet.balance + t.amount,
        total_credited := s.wallet.total_credited + t.amount,
        last_transaction_at := some now }
      let t' : Txn := { t with
        status := .completed,
        balance_after := some w.balance,
        processed_at := some now }
      (.ok (.perform (toString t.id) (now : ℤ) 2) rid,
       { s with wallet := w, txns := updateTxn s.txns t.id t' })

/-- The `CancelTransaction` branch of `payme_webhook` (views.py:661-701).
If the transaction is `completed`, the wallet balance is decremented by the
original amount directly (no balance check, no new Transaction row, no
`total_debited` update), the row is marked `refunded` and state −2 returned;
in every other status (including `cancelled` and `refunded`) the row is
(re)marked `cancelled` and state −1 returned, with no wallet change.
`cancel_time` is the current `timestamp_ms()` in both branches. -/
def payme_cancel (s : LedgerState) (now : ℕ) (pid : String) (reason : ℤ)
    (rid : Option ℕ) : PaymeResponse × LedgerState :=
  match findPayme s.txns pid with
  | none => (.err (-31003) "Transaction not found" none rid, s)
  | some t =>
    if t.status = .completed then
      let w : Wallet := { s.wallet with
        balance := s.wallet.balance - t.amount }
      let t' : Txn := { t with
        status := .refunded,
        failed_reason := "Payme refund: reason " ++ toString reason }
      (.ok (.cancel (toString t.id) (now : ℤ) (-2)) rid,
       { s with wallet := w, txns := updateTxn s.txns t.id t' })
    else
      let t' : Txn := { t with
        status := .cancelled,
        failed_reason := "Payme cancellation: reason " ++ toString reason }
      (.ok (.cancel (toString t.id) (now : ℤ) (-1)) rid,
       { s with txns := updateTxn s.txns t.id t' })

/-- A parsed Payme JSON-RPC call, dispatched on the `method` field.
`CheckTransaction` and `GetStatement` are read-only reporting methods and
are not needed by the claims under study. -/
inductive PaymeCall where
  | checkPerform (tiyin : ℤ) (order_id : Option String)
  | create (pid : String) (tiyin : ℤ) (order_id : Option String)
  | perform (pid : String)
  | cancel (pid : String) (reason : ℤ)
  | unknown (method_name : String)
deriving DecidableEq

/-- The `payme_webhook` view (views.py:417-802): Basic-Auth check
(`verify_auth` outcome supplied as `auth_ok`; on failure error −32504 with
no request id, since the body has not been parsed yet), dispatch on the
method name, and the `except Exception` handler (views.py:794-802) which
answers `{"error": {"code": -32400, "message": f"Internal error: {str(e)}"}}`.
The mutating method bodies sit inside `transaction.atomic()`, so an
exception leaves the state unchanged. -/
def payme_webhook (s : LedgerState) (now : ℕ) (auth_ok : Bool)
    (call : PaymeCall) (rid : Option ℕ) (exc : Option String) :
    PaymeResponse × LedgerState :=
  match exc with
  | some e => (.err (-32400) ("Internal error: " ++ e) none rid, s)
  | none =>
    if ¬ auth_ok then
      (.err (-32504) "Insufficient privileges" none none, s)
    else
      match call with
      | .checkPerform tiyin order_id => payme_check_perform s tiyin order_id rid
      | .create pid tiyin order_id => payme_create s pid tiyin order_id rid
      | .perform pid => payme_perform s now pid rid
      | .cancel pid reason => payme_cancel s now pid reason rid
      | .unknown m => (.err (-32601) ("Method not found: " ++ m) none rid, s)

/-- Creation of a pending top-up transaction by the bot before handing the
user to a gateway (src/bot/handlers/payment.py:189-202): type `credit`,
status `pending`, a fresh `reference_id`, `balance_before = balance_after =`
the current balance, no wallet change. -/
def newPendingTopup (s : LedgerState) (now : ℕ) (amount : ℚ) (ref : String)
    (description : String) : LedgerState :=
  let t : Txn :=
    { id := s.nextId, type := .credit, amount := amount,
      balance_before := some s.wallet.balance,
      balance_after := some s.wallet.balance,
      status := .pending, reference_id := some ref,
      external_id := none, gateway := none, gateway_transaction_id := none,
      description := description, created_at := now,
      processed_at := none, failed_reason := "" }
  { s with txns := s.txns ++ [t], nextId := s.nextId + 1 }

/-- One operation against the wallet: a Ledger Service call, the bot-side
pending-top-up creation, or a gateway webhook call. -/
inductive Op where
  | add (amount : ℚ) (description : String) (ref : Option String)
      (gw gwtx : Option String) (insert_ok : Bool)
  | deduct (amount : ℚ) (description : String) (ref : Option String)
      (skip : Bool) (insert_ok : Bool)
  | pendingTopup (amount : ℚ) (ref : String) (description : String)
  | clickPrep (req : ClickRequest)
  | clickComp (req : ClickRequest)
  | pmCheck (tiyin : ℤ) (order_id : Option String) (rid : Option ℕ)
  | pmCreate (pid : String) (tiyin : ℤ) (order_id : Option String)
      (rid : Option ℕ)
  | pmPerform (pid : String) (rid : Option ℕ)
  | pmCancel (pid : String) (reason : ℤ) (rid : Option ℕ)

/-- The state after one operation. -/
def Op.step (s : LedgerState) (now : ℕ) : Op → LedgerState
  | .add a d r g gt ok => (add_balance s now a d r g gt ok).2
  | .deduct a d r sk ok => (deduct_balance s now a d r sk ok).2
  | .pendingTopup a r d => newPendingTopup s now a r d
  | .clickPrep req => (click_prepare s req).2
  | .clickComp req => (click_complete s now req).2
  | .pmCheck t o rid => (payme_check_perform s t o rid).2
  | .pmCreate p t o rid => (payme_create s p t o rid).2
  | .pmPerform p rid => (payme_perform s now p rid).2
  | .pmCancel p r rid => (payme_cancel s now p r rid).2

/-- Whether an operation avoids the storage-fault mode (`insert_ok = false`)
of `add_balance`/`deduct_balance`. -/
def Op.clean : Op → Bool
  | .add _ _ _ _ _ ok => ok
  | .deduct _ _ _ _ ok => ok
  | _ => true

/-- Whether a deduction uses the administrative `skip_balance_check` bypass. -/
def Op.usesSkip : Op → Bool
  | .deduct _ _ _ sk _ => sk
  | _ => false

/-- Run a list of timestamped operations from a state. -/
def runOps (s : LedgerState) : List (ℕ × Op) → LedgerState
  | [] => s
  | (now, op) :: rest => runOps (op.step s now) rest

/-- A freshly created wallet (src/django_admin/apps/wallet/models.py
defaults plus the configured initial balance of
`WalletService.get_or_create_wallet`): active, no limits, zero totals,
no transactions. -/
def initState (initial : ℚ) : LedgerState :=
  ⟨⟨initial, 0, 0, true, none, none, none⟩, [], 0⟩

/-- Sum of the amounts of the rows selected by `q`. -/
def sumBy (q : Txn → Bool) (l : List Txn) : ℚ :=
  ((l.filter q).map Txn.amount).sum

/-- Selects completed credit-type rows. -/
def isCompletedCredit (t : Txn) : Bool :=
  decide (t.type = TxnType.credit ∧ t.status = TxnStatus.completed)

/-- Selects completed debit-type rows. -/
def isCompletedDebit (t : Txn) : Bool :=
  decide (t.type = TxnType.debit ∧ t.status = TxnStatus.completed)

/-- Sum of amounts of completed credit-type transactions. -/
def creditsCompleted (l : List Txn) : ℚ := sumBy isCompletedCredit l

/-- Sum of amounts of completed debit-type transactions. -/
def debitsCompleted (l : List Txn) : ℚ := sumBy isCompletedDebit l

/-- The spec's balance equation for a wallet created with balance
`initial`. -/
def BalanceEq (initial : ℚ) (s : LedgerState) : Prop :=
  s.wallet.balance = initial + creditsCompleted s.txns - debitsCompleted s.txns

/-- Structural facts every reachable transaction row satisfies: its primary
key is below the allocator, and it is credit-typed unless it is one of the
completed, gateway-less debit rows that `deduct_balance` writes. -/
def GoodTxn (n : ℕ) (t : Txn) : Prop :=
  t.id < n ∧
    (t.type = TxnType.credit ∨
      (t.type = TxnType.debit ∧ t.status = TxnStatus.completed ∧
        t.gateway ≠ some "payme"))

/-- The inductive invariant: the balance equation, well-formed ids, and the
transaction-type facts. -/
def Inv (initial : ℚ) (s : LedgerState) : Prop :=
  BalanceEq initial s ∧
    (∀ t ∈ s.txns, GoodTxn s.nextId t) ∧
    s.txns.Pairwise fun a b => a.id ≠ b.id

/-! Concrete fixtures used by the counterexamples and witnesses below. -/

/-- A pending 50.00 credit top-up transaction (reference `ord1`), as the
bot creates before a gateway payment. -/
def tPending : Txn :=
  ⟨0, .credit, 50, some 1000, some 1000, .pending, some "ord1", none, none,
    none, "Top up", 0, none, ""⟩

/-- A fresh active wallet holding 1000.00 with the one pending transaction
`tPending`. -/
def sPending : LedgerState :=
  ⟨⟨1000, 0, 0, true, none, none, none⟩, [tPending], 1⟩

/-- `tPending` after Payme `CreateTransaction` with id `pm1`. -/
def tCreated : Txn :=
  ⟨0, .credit, 50, some 1000, some 1000, .pending, some "ord1", some "pm1",
    some "payme", none, "Top up", 0, none, ""⟩

/-- Like `sPending`, but the transaction has already been attached to Payme
(`CreateTransaction` with id `pm1`). -/
def sPaymeCreated : LedgerState :=
  ⟨⟨1000, 0, 0, true, none, none, none⟩, [tCreated], 1⟩

/-- `tCreated` after `PerformTransaction` at time 5. -/
def tDone : Txn :=
  ⟨0, .credit, 50, some 1000, some 1050, .completed, some "ord1", some "pm1",
    some "payme", none, "Top up", 0, some 5, ""⟩

/-- A wallet whose Payme transaction `pm1` has been performed: balance
1050.00, the row `tDone` completed at time 5. -/
def sPaymeDone : LedgerState :=
  ⟨⟨1050, 50, 0, true, none, none, some 5⟩, [tDone], 1⟩

/-- `tDone` after a first `CancelTransaction` with reason 5. -/
def tRefunded : Txn :=
  ⟨0, .credit, 50, some 1000, some 1050, .refunded, some "ord1", some "pm1",
    some "payme", none, "Top up", 0, some 5, "Payme refund: reason 5"⟩

/-- A disabled wallet (`is_active = false`) holding 100.00 with zero daily
and monthly limits and no transactions. -/
def sInactive : LedgerState :=
  ⟨⟨100, 0, 0, false, some 0, some 0, none⟩, [], 0⟩

/-- A well-formed Click Complete request for `sPending`'s transaction:
valid signature, matching amount 50.00, no gateway-reported error. -/
def reqComplete : ClickRequest :=
  ⟨"ct1", "svc", "pd1", "ord1", some "0", 50, none, "", true⟩

/-- A well-formed Click Prepare request for `sPending`'s transaction whose
`click_trans_id` (`CT1`) differs from its `click_paydoc_id` (`PD1`). -/
def reqPrepare : ClickRequest :=
  ⟨"CT1", "svc", "PD1", "ord1", none, 50, none, "", true⟩

/-- An operation sequence that drives the balance negative without any
`skip_balance_check`: top up 2000.00 through Payme, spend the whole 3000.00
balance, then Payme cancels the completed payment (refund, reason 5). -/
def negOps : List (ℕ × Op) :=
  [(0, .pendingTopup 2000 "ord1" "Top up"),
   (1, .pmCreate "pm1" 200000 (some "ord1") none),
   (2, .pmPerform "pm1" none),
   (3, .deduct 3000 "Transcription payment" none false true),
   (4, .pmCancel "pm1" 5 none)]

/-- A clean add/deduct sequence for the C1 witness. -/
def opsClean : List (ℕ × Op) :=
  [(0, .add 100 "Admin credit" none none none true),
   (1, .deduct 30 "Transcription payment" none false true)]

/-! Helper lemmas about the transaction-list primitives. -/

theorem sumBy_cons (q : Txn → Bool) (t : Txn) (l : List Txn) :
    sumBy q (t :: l) = (if q t then t.amount else 0) + sumBy q l := by
  simp only [sumBy, List.filter_cons]
  split <;> simp [*]

theorem sumBy_append_one (q : Txn → Bool) (l : List Txn) (t : Txn) :
    sumBy q (l ++ [t]) = sumBy q l + (if q t then t.amount else 0) := by
  simp only [sumBy, List.filter_append, List.map_append, List.sum_append]
  simp only [List.filter_cons, List.filter_nil]
  split <;> simp [*]

theorem updateTxn_of_not_mem (l : List Txn) (i : ℕ) (t' : Txn)
    (h : ∀ u ∈ l, u.id ≠ i) : updateTxn l i t' = l := by
  induction l with
  | nil => rfl
  | cons u l ih =>
    simp only [updateTxn, List.map_cons] at *
    rw [if_neg (h u (by simp))]
    rw [ih fun v hv => h v (by simp [hv])]

theorem updFn_id (i : ℕ) (t' : Txn) (hid : t'.id = i) (u : Txn) :
    (if u.id = i then t' else u).id = u.id := by
  split
  · omega
  · rfl

theorem mem_updateTxn (l : List Txn) (i : ℕ) (t' u : Txn)
    (h : u ∈ updateTxn l i t') : u ∈ l ∨ u = t' := by
  simp only [updateTxn, List.mem_map] at h
  obtain ⟨v, hv, hfv⟩ := h
  by_cases hvi : v.id = i
  · rw [if_pos hvi] at hfv
    exact Or.inr hfv.symm
  · rw [if_neg hvi] at hfv
    exact Or.inl (hfv ▸ hv)

theorem pairwise_updateTxn (l : List Txn) (i : ℕ) (t' : Txn) (hid : t'.id = i)
    (hp : l.Pairwise fun a b => a.id ≠ b.id) :
    (updateTxn l i t').Pairwise fun a b => a.id ≠ b.id := by
  simp only [updateTxn]
  rw [List.pairwise_map]
  refine hp.imp ?_
  intro a b hab
  rw [updFn_id i t' hid a, updFn_id i t' hid b]
  exact hab

theorem sumBy_updateTxn (q : Txn → Bool) (l : List Txn) (t t' : Txn)
    (hm : t ∈ l) (hp : l.Pairwise fun a b => a.id ≠ b.id)
    (hid : t'.id = t.id) :
    sumBy q (updateTxn l t.id t') =
      sumBy q l - (if q t then t.amount else 0) +
        (if q t' then t'.amount else 0) := by
  induction l with
  | nil => cases hm
  | cons u l ih =>
    rw [List.pairwise_cons] at hp
    obtain ⟨hu, hp'⟩ := hp
    rcases List.mem_cons.mp hm with hm | hm
    · subst hm
      have hrest : updateTxn l t.id t' = l :=
        updateTxn_of_not_mem l t.id t' fun v hv => (hu v hv).symm
      have hstep : updateTxn (t :: l) t.id t' = t' :: l := by
        simp only [updateTxn, List.map_cons, if_true]
        simp only [updateTxn] at hrest
        rw [hrest]
      rw [hstep, sumBy_cons, sumBy_cons]
      ring
    · have hut : u.id ≠ t.id := hu t hm
      simp only [updateTxn, List.map_cons, if_neg hut]
      have := ih hm hp'
      simp only [updateTxn] at this
      rw [sumBy_cons, sumBy_cons, this]
      ring

theorem find?_updateTxn (l : List Txn) (p : Txn → Bool) (t t' : Txn)
    (h : l.find? p = some t) (h1 : p t' = true) (h2 : t'.id = t.id) :
    (updateTxn l t.id t').find? p = some t' := by
  induction l with
  | nil => cases h
  | cons u l ih =>
    by_cases hq : p u = true
    · rw [List.find?_cons_of_pos _ hq] at h
      have hut : u = t := by injection h
      subst hut
      simp only [updateTxn, List.map_cons, if_pos rfl]
      exact List.find?_cons_of_pos _ h1
    · rw [List.find?_cons_of_neg _ hq] at h
      by_cases hui : u.id = t.id
      · simp only [updateTxn, List.map_cons, if_pos hui]
        exact List.find?_cons_of_pos _ h1
      · simp only [updateTxn, List.map_cons, if_neg hui]
        rw [List.find?_cons_of_neg _ hq]
        exact ih h

theorem goodTxn_mono (n : ℕ) (t : Txn) (h : GoodTxn n t) : GoodTxn (n + 1) t :=
  ⟨Nat.lt_succ_of_lt h.1, h.2⟩

theorem inv_append (initial : ℚ) (s : LedgerState) (hInv : Inv initial s)
    (t : Txn) (w : Wallet) (hid : t.id = s.nextId)
    (htype : t.type = TxnType.credit ∨
      (t.type = TxnType.debit ∧ t.status = TxnStatus.completed ∧
        t.gateway ≠ some "payme"))
    (hbal : w.balance = s.wallet.balance +
      (if isCompletedCredit t then t.amount else 0) -
      (if isCompletedDebit t then t.amount else 0)) :
    Inv initial ⟨w, s.txns ++ [t], s.nextId + 1⟩ := by
  obtain ⟨hEq, hGood, hPw⟩ := hInv
  refine ⟨?_, ?_, ?_⟩
  · show w.balance = initial + creditsCompleted (s.txns ++ [t]) -
      debitsCompleted (s.txns ++ [t])
    unfold creditsCompleted debitsCompleted
    rw [sumBy_append_one, sumBy_append_one]
    unfold BalanceEq creditsCompleted debitsCompleted at hEq
    rw [hbal, hEq]
    ring
  · intro u hu
    rcases List.mem_append.mp hu with hu | hu
    · exact goodTxn_mono _ _ (hGood u hu)
    · rw [List.mem_singleton] at hu
      rw [hu]
      refine ⟨?_, htype⟩
      show t.id < s.nextId + 1
      omega
  · rw [List.pairwise_append]
    refine ⟨hPw, List.pairwise_singleton _ _, ?_⟩
    intro a ha b hb
    rw [List.mem_singleton] at hb
    subst hb
    have := (hGood a ha).1
    omega

theorem inv_update (initial : ℚ) (s : LedgerState) (hInv : Inv initial s)
    (t t' : Txn) (hm : t ∈ s.txns) (hid : t'.id = t.id)
    (htype : t'.type = TxnType.credit ∨
      (t'.type = TxnType.debit ∧ t'.status = TxnStatus.completed ∧
        t'.gateway ≠ some "payme"))
    (w : Wallet)
    (hbal : w.balance = s.wallet.balance -
      (if isCompletedCredit t then t.amount else 0) +
      (if isCompletedCredit t' then t'.amount else 0) +
      (if isCompletedDebit t then t.amount else 0) -
      (if isCompletedDebit t' then t'.amount else 0)) :
    Inv initial ⟨w, updateTxn s.txns t.id t', s.nextId⟩ := by
  obtain ⟨hEq, hGood, hPw⟩ := hInv
  refine ⟨?_, ?_, ?_⟩
  · show w.balance = initial + creditsCompleted (updateTxn s.txns t.id t') -
      debitsCompleted (updateTxn s.txns t.id t')
    unfold creditsCompleted debitsCompleted
    rw [sumBy_updateTxn _ _ _ _ hm hPw hid, sumBy_updateTxn _ _ _ _ hm hPw hid]
    unfold BalanceEq creditsCompleted debitsCompleted at hEq
    rw [hbal, hEq]
    ring
  · intro u hu
    rcases mem_updateTxn _ _ _ _ hu with hu | hu
    · exact hGood u hu
    · subst hu
      exact ⟨by rw [hid]; exact (hGood t hm).1, htype⟩
  · exact pairwise_updateTxn _ _ _ hid hPw

theorem inv_init (initial : ℚ) : Inv initial (initState initial) := by
  refine ⟨?_, ?_, ?_⟩ <;>
    simp [initState, BalanceEq, creditsCompleted, debitsCompleted, sumBy]

theorem inv_step (initial : ℚ) (s : LedgerState) (now : ℕ) (op : Op)
    (hInv : Inv initial s) (hclean : op.clean = true) :
    Inv initial (op.step s now) := by
  cases op with
  | add a d r g gt ok =>
    have hok : ok = true := hclean
    subst hok
    simp only [Op.step, add_balance]
    split
    · exact hInv
    · split
      · refine inv_append initial s hInv _ _ ?_ ?_ ?_
        · rfl
        · exact Or.inl rfl
        · simp [isCompletedCredit, isCompletedDebit]
      · rename_i h
        exact absurd trivial h
  | deduct a d r sk ok =>
    have hok : ok = true := hclean
    subst hok
    simp only [Op.step, deduct_balance]
    split
    · exact hInv
    · split
      · exact hInv
      · split
        · exact hInv
        · split
          · refine inv_append initial s hInv _ _ ?_ ?_ ?_
            · rfl
            · exact Or.inr ⟨rfl, rfl, by simp⟩
            · simp [isCompletedCredit, isCompletedDebit]
          · rename_i h
            exact absurd trivial h
  | pendingTopup a ref d =>
    simp only [Op.step, newPendingTopup]
    refine inv_append initial s hInv _ _ ?_ ?_ ?_
    · rfl
    · exact Or.inl rfl
    · simp [isCompletedCredit, isCompletedDebit]
  | clickPrep req =>
    simp only [Op.step, click_prepare]
    split
    · exact hInv
    · split
      · exact hInv
      · split
        · exact hInv
        · rename_i t hfind
          split
          · exact hInv
          · rename_i hamt
            split
            · exact hInv
            · rename_i hstat
              have hm : t ∈ s.txns := List.mem_of_find?_eq_some hfind
              have hpend : t.status = TxnStatus.pending := not_not.mp hstat
              have hcred : t.type = TxnType.credit := by
                rcases (hInv.2.1 t hm).2 with h | h
                · exact h
                · rw [h.2.1] at hpend
                  exact absurd hpend (by decide)
              refine inv_update initial s hInv t ?_ hm ?_ ?_ s.wallet ?_
              · rfl
              · exact Or.inl hcred
              · simp [isCompletedCredit, isCompletedDebit, hpend, hcred]
  | clickComp req =>
    simp only [Op.step, click_complete]
    split
    · exact hInv
    · split
      · exact hInv
      · split
        · exact hInv
        · rename_i t hfind
          split
          · exact hInv
          · rename_i hamt
            split
            · exact hInv
            · rename_i hdone
              split
              · exact hInv
              · rename_i hcanc
                have hm : t ∈ s.txns := List.mem_of_find?_eq_some hfind
                have hcred : t.type = TxnType.credit := by
                  rcases (hInv.2.1 t hm).2 with h | h
                  · exact h
                  · exact absurd h.2.1 hdone
                refine inv_update initial s hInv t ?_ hm ?_ ?_ _ ?_
                · rfl
                · exact Or.inl hcred
                · simp [isCompletedCredit, isCompletedDebit, hcred, hdone]
  | pmCheck tiyin order_id rid =>
    simp only [Op.step, payme_check_perform]
    split
    · exact hInv
    · split
      · exact hInv
      · split
        · exact hInv
        · split
          · exact hInv
          · exact hInv
  | pmCreate pid tiyin order_id rid =>
    simp only [Op.step, payme_create]
    split
    · exact hInv
    · split
      · exact hInv
      · rename_i t hfind
        split
        · exact hInv
        · split
          · exact hInv
          · split
            · exact hInv
            · rename_i hstat
              have hm : t ∈ s.txns := List.mem_of_find?_eq_some hfind
              have hpend : t.status = TxnStatus.pending := not_not.mp hstat
              have hcred : t.type = TxnType.credit := by
                rcases (hInv.2.1 t hm).2 with h | h
                · exact h
                · rw [h.2.1] at hpend
                  exact absurd hpend (by decide)
              refine inv_update initial s hInv t ?_ hm ?_ ?_ s.wallet ?_
              · rfl
              · exact Or.inl hcred
              · simp [isCompletedCredit, isCompletedDebit, hpend, hcred]
  | pmPerform pid rid =>
    simp only [Op.step, payme_perform]
    split
    · exact hInv
    · rename_i t hfind
      simp only [findPayme] at hfind
      have hm : t ∈ s.txns := List.mem_of_find?_eq_some hfind
      have hp := List.find?_some hfind
      rw [decide_eq_true_eq] at hp
      split
      · exact hInv
      · split
        · exact hInv
        · rename_i hdone hcf
          have hcred : t.type = TxnType.credit := by
            rcases (hInv.2.1 t hm).2 with h | h
            · exact h
            · exact absurd hp.2 h.2.2
          refine inv_update initial s hInv t ?_ hm ?_ ?_ _ ?_
          · rfl
          · exact Or.inl hcred
          · simp [isCompletedCredit, isCompletedDebit, hcred, hdone]
  | pmCancel pid reason rid =>
    simp only [Op.step, payme_cancel]
    split
    · exact hInv
    · rename_i t hfind
      simp only [findPayme] at hfind
      have hm : t ∈ s.txns := List.mem_of_find?_eq_some hfind
      have hp := List.find?_some hfind
      rw [decide_eq_true_eq] at hp
      have hcred : t.type = TxnType.credit := by
        rcases (hInv.2.1 t hm).2 with h | h
        · exact h
        · exact absurd hp.2 h.2.2
      split
      · rename_i hdone
        refine inv_update initial s hInv t ?_ hm ?_ ?_ _ ?_
        · rfl
        · exact Or.inl hcred
        · simp [isCompletedCredit, isCompletedDebit, hcred, hdone]
      · rename_i hnd
        refine inv_update initial s hInv t ?_ hm ?_ ?_ s.wallet ?_
        · rfl
        · exact Or.inl hcred
        · simp [isCompletedCredit, isCompletedDebit, hcred, hnd]

theorem inv_run (initial : ℚ) (s : LedgerState) (ops : List (ℕ × Op))
    (hInv : Inv initial s) (hclean : ∀ p ∈ ops, (Prod.snd p).clean = true) :
    Inv initial (runOps s ops) := by
  induction ops generalizing s with
  | nil => exact hInv
  | cons p rest ih =>
    obtain ⟨now, op⟩ := p
    exact ih _ (inv_step initial s now op hInv
        (hclean (now, op) (List.mem_cons_self _ _)))
      fun q hq => hclean q (List.mem_cons_of_mem _ hq)

/-! Claim C1. -/

/-- C1 (amended): for every wallet and every sequence of Ledger Service
`add_balance`/`deduct_balance` calls, bot-side pending-top-up creations and
gateway webhook calls (in which no transaction insert raises), the wallet's
balance always equals its initial balance plus the sum of amounts of
completed credit-type transactions minus the sum of amounts of completed
debit-type transactions. (The second half of the original claim — that the
balance never becomes negative unless `skip_balance_check` is set — is
refuted by `claim_C1_counterexample`: Payme `CancelTransaction` of a
completed payment debits the wallet with no balance check at all.) -/
theorem claim_C1_balance_equation (initial : ℚ) (ops : List (ℕ × Op))
    (hclean : ∀ p ∈ ops, (Prod.snd p).clean = true) :
    BalanceEq initial (runOps (initState initial) ops) :=
  (inv_run initial _ ops (inv_init initial) hclean).1

/-- C1 witness: the balance equation instantiated on a concrete clean
add/deduct sequence. -/
theorem claim_C1_witness :
    (∀ p ∈ opsClean, (Prod.snd p).clean = true) ∧
      BalanceEq 1000 (runOps (initState 1000) opsClean) :=
  ⟨by decide, claim_C1_balance_equation 1000 opsClean (by decide)⟩

set_option maxRecDepth 100000 in
/-- C1 counterexample: the sequence `negOps` — top up 2000.00 via Payme,
spend the resulting 3000.00 balance, then Payme cancels the completed
payment — never sets `skip_balance_check`, yet leaves the wallet balance at
−2000.00. This refutes the claim's assertion that the balance never becomes
negative unless the administrative bypass flag is set. -/
theorem claim_C1_counterexample :
    (∀ p ∈ negOps, (Prod.snd p).usesSkip = false) ∧
      (runOps (initState 1000) negOps).wallet.balance < 0 := by
  refine ⟨by decide, ?_⟩
  decide

/-! Claim C6. -/

theorem add_balance_fail_unchanged (s : LedgerState) (now : ℕ) (a : ℚ)
    (d : String) (r g gt : Option String)
    (h : (add_balance s now a d r g gt true).1.success = false) :
    (add_balance s now a d r g gt true).2 = s := by
  by_cases hpos : a ≤ 0
  · simp [add_balance, hpos]
  · exfalso
    simp [add_balance, hpos] at h

theorem deduct_balance_fail_unchanged (s : LedgerState) (now : ℕ) (a : ℚ)
    (d : String) (r : Option String) (sk : Bool)
    (h : (deduct_balance s now a d r sk true).1.success = false) :
    (deduct_balance s now a d r sk true).2 = s := by
  unfold deduct_balance at h ⊢
  split at h
  case isTrue hc => rw [if_pos hc]
  case isFalse hc =>
    split at h
    case isTrue hc2 => rw [if_neg hc, if_pos hc2]
    case isFalse hc2 =>
      split at h
      case isTrue hc3 => rw [if_neg hc, if_neg hc2, if_pos hc3]
      case isFalse hc3 =>
        exfalso
        simp at h

/-- C6 (amended): the guard failures of `add_balance`/`deduct_balance`
(non-positive amount, duplicate completed reference, insufficient balance)
leave the wallet and the transaction log unchanged; but the balance update
and the Transaction insert are not one atomic unit: when the insert raises
after `wallet.save()` has committed, the call returns a failure result with
the balance and `total_credited` already mutated and no transaction row
written. (The original claim — failure implies no partial effect — is
refuted by `claim_C6_counterexample`.) -/
theorem claim_C6_atomicity (s : LedgerState) (now : ℕ) (a : ℚ) (d : String)
    (r g gt : Option String) (sk : Bool) :
    ((add_balance s now a d r g gt true).1.success = false →
      (add_balance s now a d r g gt true).2 = s) ∧
    ((deduct_balance s now a d r sk true).1.success = false →
      (deduct_balance s now a d r sk true).2 = s) ∧
    (0 < a →
      (add_balance s now a d r g gt false).1.success = false ∧
      (add_balance s now a d r g gt false).2.wallet.balance =
        s.wallet.balance + a ∧
      (add_balance s now a d r g gt false).2.wallet.total_credited =
        s.wallet.total_credited + a ∧
      (add_balance s now a d r g gt false).2.txns = s.txns) := by
  refine ⟨add_balance_fail_unchanged s now a d r g gt,
    deduct_balance_fail_unchanged s now a d r sk, ?_⟩
  intro hpos
  have hb : ¬ a ≤ 0 := not_le.mpr hpos
  refine ⟨?_, ?_, ?_, ?_⟩ <;> simp [add_balance, hb]

/-- C6 counterexample: with the transaction insert raising, `add_balance`
on a fresh wallet returns a failure result, yet the wallet balance has
already been mutated from 1000.00 to 1010.00 — a failure with a partial
effect, contradicting the claimed atomicity. -/
theorem claim_C6_counterexample :
    (add_balance (initState 1000) 0 10 "Top up" none none none false).1.success
        = false ∧
      (add_balance (initState 1000) 0 10 "Top up" none none none
          false).2.wallet.balance ≠ (initState 1000).wallet.balance := by
  refine ⟨by decide, by decide⟩

/-- C6 witness: the amended statement instantiated on concrete calls — a
rejected negative-amount credit and an insufficient-balance debit leave a
fresh wallet unchanged, and a credit whose insert raises fails with the
balance already mutated. -/
theorem claim_C6_witness :
    ((add_balance (initState 1000) 7 (-5) "d" none none none true).1.success
        = false ∧
      (add_balance (initState 1000) 7 (-5) "d" none none none true).2 =
        initState 1000) ∧
    ((deduct_balance (initState 1000) 7 2000 "d" none false true).1.success
        = false ∧
      (deduct_balance (initState 1000) 7 2000 "d" none false true).2 =
        initState 1000) ∧
    (0 < (10 : ℚ) ∧
      (add_balance (initState 1000) 7 10 "d" none none none
          false).2.wallet.balance = (initState 1000).wallet.balance + 10) :=
  ⟨⟨by decide,
    (claim_C6_atomicity (initState 1000) 7 (-5) "d" none none none
      false).1 (by decide)⟩,
   ⟨by decide,
    (claim_C6_atomicity (initState 1000) 7 2000 "d" none none none
      false).2.1 (by decide)⟩,
   by norm_num,
   ((claim_C6_atomicity (initState 1000) 7 10 "d" none none none
      false).2.2 (by norm_num)).2.1⟩

/-! Claim C7. -/

/-- C7 (amended): `deduct_balance` succeeds exactly when the amount is
positive, no completed transaction already carries the given reference, and
the balance suffices unless `skip_balance_check` bypasses that check. It
performs no wallet-activity check and no daily/monthly-limit check: its
result is unchanged when the wallet is deactivated and both limits set to
zero. (The original claim's `WalletInactive` and `LimitExceeded` failures do
not exist in the code — refuted by `claim_C7_counterexample`.) -/
theorem claim_C7_deduct_conditions (s : LedgerState) (now : ℕ) (a : ℚ)
    (d : String) (r : Option String) (sk : Bool) :
    ((deduct_balance s now a d r sk true).1.success = true ↔
      (0 < a ∧ hasCompletedRef s r = false ∧
        (sk = true ∨ a ≤ s.wallet.balance))) ∧
    (deduct_balance
        { s with wallet := { s.wallet with
            is_active := false,
            daily_limit := some 0,
            monthly_limit := some 0 } }
        now a d r sk true).1 =
      (deduct_balance s now a d r sk true).1 := by
  constructor
  · unfold deduct_balance
    split
    case isTrue hc =>
      simp [not_lt.mpr hc]
    case isFalse hc =>
      split
      case isTrue hc2 =>
        simp [hc2]
      case isFalse hc2 =>
        split
        case isTrue hc3 =>
          simp only [Bool.not_eq_true] at hc3
          simp [hc3.1, not_le.mpr hc3.2]
        case isFalse hc3 =>
          rw [if_pos rfl]
          simp only [Bool.not_eq_true] at hc2
          rcases not_and_or.mp hc3 with h | h
          · simp [not_le.mp hc, hc2, not_not.mp h]
          · simp [not_le.mp hc, hc2, not_lt.mp h]
  · simp only [deduct_balance, hasCompletedRef]
    split
    · rfl
    · split
      · rfl
      · split
        · rfl
        · rfl

/-- C7 counterexample: a deactivated wallet (`is_active = false`) with zero
daily and monthly limits still accepts a 50.00 deduction — no
`WalletInactive` and no `LimitExceeded` failure exists in the code. -/
theorem claim_C7_counterexample :
    sInactive.wallet.is_active = false ∧
      sInactive.wallet.daily_limit = some 0 ∧
      sInactive.wallet.monthly_limit = some 0 ∧
      (deduct_balance sInactive 0 50 "Transcription payment" none false
          true).1.success = true := by
  refine ⟨rfl, rfl, rfl, by decide⟩

/-! Claims C2 and C4. -/

/-- C2 (amended): `CancelTransaction` on a completed Payme transaction
returns state −2 and decrements the wallet balance by the original amount
directly: no new Transaction row is written (the log keeps its length) and
`total_debited` is untouched — there is no compensating ledger entry through
the Ledger Service. The original row is marked `refunded`; its
`balance_after` (and every other money field) is not mutated. (The original
claim's "new Transaction row written via the Ledger Service" is refuted by
`claim_C2_counterexample`.) -/
theorem claim_C2_cancel_after_complete (s : LedgerState) (now : ℕ)
    (pid : String) (reason : ℤ) (rid : Option ℕ) (t : Txn)
    (hfind : findPayme s.txns pid = some t)
    (hdone : t.status = TxnStatus.completed) :
    payme_cancel s now pid reason rid =
      (.ok (.cancel (toString t.id) (now : ℤ) (-2)) rid,
       { s with
         wallet := { s.wallet with balance := s.wallet.balance - t.amount },
         txns := updateTxn s.txns t.id
           { t with
             status := .refunded,
             failed_reason := "Payme refund: reason " ++ toString reason } }) ∧
    (payme_cancel s now pid reason rid).2.txns.length = s.txns.length ∧
    (payme_cancel s now pid reason rid).2.wallet.total_debited =
      s.wallet.total_debited := by
  have hmain : payme_cancel s now pid reason rid =
      (.ok (.cancel (toString t.id) (now : ℤ) (-2)) rid,
       { s with
         wallet := { s.wallet with balance := s.wallet.balance - t.amount },
         txns := updateTxn s.txns t.id
           { t with
             status := .refunded,
             failed_reason := "Payme refund: reason " ++ toString reason } }) := by
    unfold payme_cancel
    rw [hfind]
    simp [hdone]
  refine ⟨hmain, ?_, ?_⟩ <;> rw [hmain] <;> simp [updateTxn]

/-- C2 counterexample: cancelling the completed 50.00 Payme payment of
`sPaymeDone` changes no transaction-log length and no `total_debited` — the
compensating debit is applied to the wallet row alone; no new Transaction
row is written via the Ledger Service, contrary to the claim. -/
theorem claim_C2_counterexample :
    (payme_cancel sPaymeDone 9 "pm1" 5 none).2.txns.length =
        sPaymeDone.txns.length ∧
      (payme_cancel sPaymeDone 9 "pm1" 5 none).2.wallet.total_debited =
        sPaymeDone.wallet.total_debited ∧
      (payme_cancel sPaymeDone 9 "pm1" 5 none).1 =
        .ok (.cancel "0" 9 (-2)) none ∧
      (payme_cancel sPaymeDone 9 "pm1" 5 none).2.wallet.balance = 1000 := by
  refine ⟨by decide, by decide, by decide, by decide⟩

/-- C2 witness: the amended statement instantiated on `sPaymeDone`, whose
only transaction is completed with Payme id `pm1`. -/
theorem claim_C2_witness :
    (findPayme sPaymeDone.txns "pm1" = some tDone ∧
      tDone.status = TxnStatus.completed) ∧
    (payme_cancel sPaymeDone 9 "pm1" 5 none).2.txns.length =
      sPaymeDone.txns.length ∧
    (payme_cancel sPaymeDone 9 "pm1" 5 none).2.wallet.total_debited =
      sPaymeDone.wallet.total_debited :=
  ⟨⟨by decide, by decide⟩,
   (claim_C2_cancel_after_complete sPaymeDone 9 "pm1" 5 none
     tDone (by decide) (by decide)).2⟩

/-- C4 (amended): a second `CancelTransaction` on a transaction that is no
longer `completed` (already `cancelled` or already `refunded`) never touches
the wallet — in particular it does not debit a second time — but it is not
an idempotent no-op: it always returns state −1 (even for a refunded
transaction, where the first cancel returned −2) and (re)writes the row's
status to `cancelled`. (The original claim's "returns state −2 for a
refunded transaction, no second mutation" is refuted by
`claim_C4_counterexample`.) -/
theorem claim_C4_second_cancel (s : LedgerState) (now : ℕ) (pid : String)
    (reason : ℤ) (rid : Option ℕ) (t : Txn)
    (hfind : findPayme s.txns pid = some t)
    (hnot : t.status ≠ TxnStatus.completed) :
    (payme_cancel s now pid reason rid).1 =
      .ok (.cancel (toString t.id) (now : ℤ) (-1)) rid ∧
    (payme_cancel s now pid reason rid).2.wallet = s.wallet ∧
    (payme_cancel s now pid reason rid).2.txns = updateTxn s.txns t.id
      { t with
        status := .cancelled,
        failed_reason := "Payme cancellation: reason " ++ toString reason } := by
  have hmain : payme_cancel s now pid reason rid =
      (.ok (.cancel (toString t.id) (now : ℤ) (-1)) rid,
       { s with txns := (updateTxn s.txns t.id
         { t with
           status := .cancelled,
           failed_reason := "Payme cancellation: reason " ++ toString reason }) }) := by
    unfold payme_cancel
    rw [hfind]
    simp [hnot]
  rw [hmain]
  exact ⟨rfl, rfl, rfl⟩

/-- C4 counterexample: on `sPaymeDone` the first cancel returns state −2
(refund, balance back to 1000.00); replaying the identical cancel returns
state −1 — not the same terminal state — and overwrites the status from
`refunded` to `cancelled`. -/
theorem claim_C4_counterexample :
    (payme_cancel sPaymeDone 9 "pm1" 5 none).1 =
        .ok (.cancel "0" 9 (-2)) none ∧
      (payme_cancel (payme_cancel sPaymeDone 9 "pm1" 5 none).2 11 "pm1" 5
          none).1 = .ok (.cancel "0" 11 (-1)) none ∧
      ((payme_cancel (payme_cancel sPaymeDone 9 "pm1" 5 none).2 11 "pm1" 5
          none).2.txns.map Txn.status) = [TxnStatus.cancelled] := by
  refine ⟨by decide, by decide, by decide⟩

/-- C4 witness: the amended statement instantiated on the state after the
first cancel of `sPaymeDone`'s payment (status `refunded`): the second
cancel leaves the wallet untouched and returns state −1. -/
theorem claim_C4_witness :
    (findPayme (payme_cancel sPaymeDone 9 "pm1" 5 none).2.txns "pm1" =
        some tRefunded ∧
      tRefunded.status ≠ TxnStatus.completed) ∧
    (payme_cancel (payme_cancel sPaymeDone 9 "pm1" 5 none).2 11 "pm1" 5
        none).1 = .ok (.cancel (toString tRefunded.id) (11 : ℤ) (-1)) none ∧
    (payme_cancel (payme_cancel sPaymeDone 9 "pm1" 5 none).2 11 "pm1" 5
        none).2.wallet = (payme_cancel sPaymeDone 9 "pm1" 5 none).2.wallet :=
  ⟨⟨by decide, by decide⟩,
   (claim_C4_second_cancel (payme_cancel sPaymeDone 9 "pm1" 5 none).2 11
     "pm1" 5 none tRefunded (by decide) (by decide)).1,
   (claim_C4_second_cancel (payme_cancel sPaymeDone 9 "pm1" 5 none).2 11
     "pm1" 5 none tRefunded (by decide) (by decide)).2.1⟩

/-! Claim C8. -/

/-- C8 (amended): a Click Prepare request with a valid signature, no
gateway-reported error, a matching amount and a pending transaction answers
error 0 with `merchant_prepare_id` equal to the transaction's own id, and
persists `gateway = "click"`, `gateway_transaction_id = click_trans_id` and
`external_id = click_paydoc_id`. (The original claim says `external_id`
receives `click_trans_id`; the code stores `click_trans_id` in
`gateway_transaction_id` and `click_paydoc_id` in `external_id` — refuted
by `claim_C8_counterexample`.) -/
theorem claim_C8_prepare_success (s : LedgerState) (req : ClickRequest)
    (t : Txn) (hsig : req.sig_valid = true) (herr : clickErrNeg req = false)
    (hfind : s.txns.find? (fun u =>
      decide (u.reference_id = some req.merchant_trans_id)) = some t)
    (hamt : req.amount = t.amount) (hpend : t.status = TxnStatus.pending) :
    click_prepare s req =
      (click_prepare_response req.click_trans_id req.merchant_trans_id
        (toString t.id),
       { s with txns := (updateTxn s.txns t.id
         { t with
           gateway_transaction_id := some req.click_trans_id,
           external_id := some req.click_paydoc_id,
           gateway := some "click" }) }) ∧
    (click_prepare s req).1.error = 0 ∧
    (click_prepare s req).1.merchant_prepare_id = strOpt (toString t.id) := by
  have hmain : click_prepare s req =
      (click_prepare_response req.click_trans_id req.merchant_trans_id
        (toString t.id),
       { s with txns := (updateTxn s.txns t.id
         { t with
           gateway_transaction_id := some req.click_trans_id,
           external_id := some req.click_paydoc_id,
           gateway := some "click" }) }) := by
    unfold click_prepare
    rw [hfind]
    simp [hsig, herr, hamt, hpend]
  rw [hmain]
  exact ⟨rfl, rfl, rfl⟩

/-- C8 counterexample: a valid Prepare for `sPending`'s transaction whose
`click_trans_id` is `CT1` and whose `click_paydoc_id` is `PD1` leaves the
row with `external_id = PD1` (and `gateway_transaction_id = CT1`) — the
claim's `external_id = click_trans_id` is false. -/
theorem claim_C8_counterexample :
    reqPrepare.click_trans_id = "CT1" ∧
      ((click_prepare sPending reqPrepare).2.txns.map Txn.external_id) =
        [some "PD1"] ∧
      ((click_prepare sPending reqPrepare).2.txns.map
        Txn.gateway_transaction_id) = [some "CT1"] ∧
      (click_prepare sPending reqPrepare).1.error = 0 := by
  refine ⟨rfl, by decide, by decide, by decide⟩

/-- C8 witness: the amended statement instantiated on `sPending` and the
well-formed Prepare request `reqPrepare`. -/
theorem claim_C8_witness :
    (reqPrepare.sig_valid = true ∧ clickErrNeg reqPrepare = false ∧
      sPending.txns.find? (fun u =>
        decide (u.reference_id = some reqPrepare.merchant_trans_id)) =
          some tPending ∧
      reqPrepare.amount = tPending.amount ∧
      tPending.status = TxnStatus.pending) ∧
    (click_prepare sPending reqPrepare).1.error = 0 ∧
    (click_prepare sPending reqPrepare).1.merchant_prepare_id =
      strOpt (toString tPending.id) :=
  ⟨⟨rfl, by decide, by decide, by decide, rfl⟩,
   (claim_C8_prepare_success sPending reqPrepare tPending rfl (by decide)
     (by decide) (by decide) rfl).2⟩

/-! Claim C9. -/

/-- C9 (amended): every webhook response — including when the handler body
raises an unexpected exception — is the protocol's own structured error
(numeric code plus `error_note`/`message`), never a raw stack trace, and an
unexpected internal exception is answered with the protocol's generic
internal-error code (−9 for Click, −32400 for Payme) and no state change;
but the accompanying message is `"Internal error: " ++ str(e)` — it embeds
the internal exception text instead of hiding it. (The original claim's
"never contains internal exception text" is refuted by
`claim_C9_counterexample`.) -/
theorem claim_C9_internal_errors (s : LedgerState) (now : ℕ)
    (req : ClickRequest) (auth_ok : Bool) (call : PaymeCall)
    (rid : Option ℕ) (e : String) :
    click_prepare_view s req (some e) =
      (⟨-9, "Internal error: " ++ e, none, none, none, none⟩, s) ∧
    click_complete_view s now req (some e) =
      (⟨-9, "Internal error: " ++ e, none, none, none, none⟩, s) ∧
    payme_webhook s now auth_ok call rid (some e) =
      (.err (-32400) ("Internal error: " ++ e) none rid, s) :=
  ⟨rfl, rfl, rfl⟩

/-- C9 counterexample: an unexpected exception whose text is
`"division by zero"` is echoed verbatim inside the Click error note and the
Payme error message — the response contains the internal exception text,
contrary to the claim. -/
theorem claim_C9_counterexample :
    (∃ pre post : String,
      (click_prepare_view sPending reqPrepare
        (some "division by zero")).1.error_note =
          pre ++ "division by zero" ++ post) ∧
    (∃ pre : String,
      ∀ m : String, (payme_webhook sPending 0 true (.perform "pm1") none
        (some m)).1 = .err (-32400) (pre ++ m) none none) :=
  ⟨⟨"Internal error: ", "", rfl⟩, ⟨"Internal error: ", fun m => rfl⟩⟩

/-! Claim C3. -/

/-- C3: replaying an identical Click Complete request after it has answered
success (error 0), or an identical Payme PerformTransaction after it has
answered a result, returns exactly the same response — same
`merchant_confirm_id` for Click, same transaction id, `perform_time` and
state 2 for Payme — and leaves the state (in particular the wallet balance)
untouched, even at a later time `n2`. -/
theorem claim_C3_replay_idempotent (s : LedgerState) (n1 n2 : ℕ)
    (req : ClickRequest) (pid : String) (rid : Option ℕ) :
    ((click_complete s n1 req).1.error = 0 →
      click_complete (click_complete s n1 req).2 n2 req =
        click_complete s n1 req) ∧
    ((payme_perform s n1 pid rid).1.isOk = true →
      payme_perform (payme_perform s n1 pid rid).2 n2 pid rid =
        payme_perform s n1 pid rid) := by
  constructor
  · intro h
    by_cases hsig : req.sig_valid = true
    case neg =>
      exfalso
      simp [click_complete, hsig, click_error_response] at h
    case pos =>
    by_cases herr : clickErrNeg req = true
    case pos =>
      exfalso
      simp [click_complete, hsig, herr, click_error_response] at h
    case neg =>
    rcases hfind : s.txns.find? (fun u =>
        decide (u.reference_id = some req.merchant_trans_id)) with _ | t
    · exfalso
      simp [click_complete, hsig, herr, hfind, click_error_response] at h
    · by_cases hamt : roundD req.amount = roundD t.amount
      case neg =>
        exfalso
        simp [click_complete, hsig, herr, hfind, hamt,
          click_error_response] at h
      case pos =>
      by_cases hdone : t.status = TxnStatus.completed
      case pos =>
        have hfc : click_complete s n1 req =
            (click_complete_response req.click_trans_id req.merchant_trans_id
              (toString t.id), s) := by
          unfold click_complete
          rw [hfind]
          simp [hsig, herr, hamt, hdone]
        rw [hfc]
        unfold click_complete
        rw [hfind]
        simp [hsig, herr, hamt, hdone]
      case neg =>
      by_cases hcanc : t.status = TxnStatus.cancelled
      case pos =>
        exfalso
        simp [click_complete, hsig, herr, hfind, hamt, hdone, hcanc,
          click_error_response] at h
      case neg =>
        have hfc : click_complete s n1 req =
            (click_complete_response req.click_trans_id req.merchant_trans_id
              (toString t.id),
             { s with
               wallet := { s.wallet with
                 balance := s.wallet.balance + t.amount,
                 total_credited := s.wallet.total_credited + t.amount,
                 last_transaction_at := some n1 },
               txns := (updateTxn s.txns t.id
                 { t with
                   status := .completed,
                   balance_after := some (s.wallet.balance + t.amount),
                   processed_at := some n1,
                   gateway_transaction_id := some req.click_trans_id,
                   external_id := some req.click_paydoc_id,
                   gateway := some "click" }) }) := by
          unfold click_complete
          rw [hfind]
          simp [hsig, herr, hamt, hdone, hcanc]
        have hp := List.find?_some hfind
        have hfind2 : (updateTxn s.txns t.id
            { t with
              status := .completed,
              balance_after := some (s.wallet.balance + t.amount),
              processed_at := some n1,
              gateway_transaction_id := some req.click_trans_id,
              external_id := some req.click_paydoc_id,
              gateway := some "click" }).find? (fun u =>
                decide (u.reference_id = some req.merchant_trans_id)) =
            some { t with
              status := .completed,
              balance_after := some (s.wallet.balance + t.amount),
              processed_at := some n1,
              gateway_transaction_id := some req.click_trans_id,
              external_id := some req.click_paydoc_id,
              gateway := some "click" } :=
          find?_updateTxn _ _ _ _ hfind hp rfl
        rw [hfc]
        unfold click_complete
        simp [hsig, herr, hfind2, hamt]
  · intro h
    rcases hfind : findPayme s.txns pid with _ | t
    · exfalso
      simp [payme_perform, hfind, PaymeResponse.isOk] at h
    · by_cases hdone : t.status = TxnStatus.completed
      case pos =>
        have hfc : payme_perform s n1 pid rid =
            (.ok (.perform (toString t.id)
              (match t.processed_at with | some p => (p : ℤ) | none => 0) 2)
              rid, s) := by
          unfold payme_perform
          rw [hfind]
          simp [hdone]
        rw [hfc]
        unfold payme_perform
        rw [hfind]
        simp [hdone]
      case neg =>
      by_cases hcf : t.status = TxnStatus.cancelled ∨
          t.status = TxnStatus.failed
      case pos =>
        exfalso
        simp [payme_perform, hfind, hdone, hcf, PaymeResponse.isOk] at h
      case neg =>
        have hfind' : s.txns.find? (fun u =>
            decide (u.external_id = some pid ∧ u.gateway = some "payme")) =
            some t := hfind
        have hp := List.find?_some hfind'
        have hfc : payme_perform s n1 pid rid =
            (.ok (.perform (toString t.id) (n1 : ℤ) 2) rid,
             { s with
               wallet := { s.wallet with
                 balance := s.wallet.balance + t.amount,
                 total_credited := s.wallet.total_credited + t.amount,
                 last_transaction_at := some n1 },
               txns := (updateTxn s.txns t.id
                 { t with
                   status := .completed,
                   balance_after := some (s.wallet.balance + t.amount),
                   processed_at := some n1 }) }) := by
          unfold payme_perform
          rw [hfind]
          simp [hdone, hcf]
        have hfind2 : findPayme (updateTxn s.txns t.id
            { t with
              status := .completed,
              balance_after := some (s.wallet.balance + t.amount),
              processed_at := some n1 }) pid =
            some { t with
              status := .completed,
              balance_after := some (s.wallet.balance + t.amount),
              processed_at := some n1 } :=
          find?_updateTxn _ _ _ _ hfind' hp rfl
        rw [hfc]
        unfold payme_perform
        simp [hfind2]

/-- C3 witness: a successful Click Complete on `sPending` and a successful
Payme PerformTransaction on `sPaymeCreated`, each replayed with the
identical request at a later time, return their first response and state. -/
theorem claim_C3_witness :
    ((click_complete sPending 1 reqComplete).1.error = 0 ∧
      click_complete (click_complete sPending 1 reqComplete).2 2 reqComplete =
        click_complete sPending 1 reqComplete) ∧
    ((payme_perform sPaymeCreated 1 "pm1" (some 7)).1.isOk = true ∧
      payme_perform (payme_perform sPaymeCreated 1 "pm1" (some 7)).2 2 "pm1"
        (some 7) = payme_perform sPaymeCreated 1 "pm1" (some 7)) :=
  ⟨⟨by decide, (claim_C3_replay_idempotent sPending 1 2 reqComplete "pm1"
      (some 7)).1 (by decide)⟩,
   ⟨by decide, (claim_C3_replay_idempotent sPaymeCreated 1 2 reqComplete
      "pm1" (some 7)).2 (by decide)⟩⟩

/-! Claim C5. -/

/-- C5 (code bug): the amounts crossing the Payme boundary are converted
with binary64 float arithmetic, not exact integer arithmetic.
`tiyin_to_amount 1` (`float(1)/100`) is the double `5764607523034235·2⁻⁵⁹ ≈
0.01000000000000000020816…`, not the exact `1/100`; and `amount_to_tiyin`
on the float nearest 0.29 UZS (`int(0.29*100)` in Python) yields 28 tiyin,
while the exact integer conversion the claim requires gives
`29/100 · 100 = 29`. -/
theorem claim_C5_float_conversion :
    tiyin_to_amount 1 ≠ (1 : ℚ) / 100 ∧
      tiyin_to_amount 1 = 5764607523034235 / 2 ^ 59 ∧
      amount_to_tiyin (roundD (29 / 100)) = 28 ∧
      ((29 : ℚ) / 100) * 100 = 29 :=
  ⟨by decide, by decide, by decide, by norm_num⟩

/-! Claim C10. -/

/-- Python's `(s + 59) // 60` (floor division, equal to Euclidean division
for the positive divisor 60) is exactly `⌈s/60⌉`. -/
theorem minutes_eq_ceil (s : ℤ) :
    max 1 ((s + 59).fdiv 60) = max 1 ⌈(s : ℚ) / 60⌉ := by
  rw [Int.fdiv_eq_ediv _ (by norm_num)]
  have h2 : (⌊-((s : ℚ) / 60)⌋ : ℤ) = -⌈(s : ℚ) / 60⌉ := Int.floor_neg
  have h3 : -((s : ℚ) / 60) = (((-s : ℤ) : ℚ)) / ((60 : ℕ) : ℚ) := by
    push_cast
    ring
  rw [h3, Rat.floor_intCast_div_natCast] at h2
  push_cast at h2
  omega

/-- C10: for every `duration_seconds ≥ 0` and every media type,
`calculate_transcription_cost` charges per whole minute rounded up with a
one-minute minimum: the cost equals the configured per-minute price (video
price for `video`/`video_note`, audio price otherwise) multiplied by
`max 1 ⌈duration_seconds/60⌉`, quantized to two decimal places. -/
theorem claim_C10_transcription_cost (p : PricingSettings) (s : ℤ)
    (media : String) (hs : 0 ≤ s) :
    calculate_transcription_cost p s media =
      quantize2 ((if media.toLower = "video" ∨ media.toLower = "video_note"
        then p.video_price_per_min else p.audio_price_per_min) *
        ((max 1 ⌈(s : ℚ) / 60⌉ : ℤ) : ℚ)) := by
  simp only [calculate_transcription_cost]
  rw [minutes_eq_ceil s]

/-- C10 witness: 61 seconds of audio at the default prices cost two audio
minutes. -/
theorem claim_C10_witness :
    (0 : ℤ) ≤ 61 ∧
      calculate_transcription_cost ⟨100, 150, 1000⟩ 61 "audio" =
        quantize2 ((if "audio".toLower = "video" ∨
            "audio".toLower = "video_note"
          then (150 : ℚ) else 100) * ((max 1 ⌈((61 : ℤ) : ℚ) / 60⌉ : ℤ) : ℚ)) :=
  ⟨by norm_num,
   claim_C10_transcription_cost ⟨100, 150, 1000⟩ 61 "audio" (by norm_num)⟩

end TranscriptionBot
